import Mathlib

/-!
Verification of the bot-configuration extraction and dynamic test-parametrization
core of the repository (a pytest-based test-automation harness for conversational
bots).  The Python sources embedded here are:

* `bot_testing/config/extractor.py` — `ElementExtractor` and its extraction methods;
* `bot_testing/config/element_types.py` — the `BlockInfo` / `EntryEdgeInfo` /
  `NodeInfo` / `ScenarioInfo` record types;
* `bot_testing/utils.py` — `regex_to_sample_message`, the pattern-to-probe converter;
* `bot_testing/coverage/tracker.py` — `CoverageTracker`;
* `tests/conftest.py` — `_make_test_id` and the match-edge branch of
  `pytest_generate_tests`.

Loosely-typed Python dictionaries are modelled as records whose optional fields
are `Option`-valued: `none` stands for an absent key (a JSON `null` stored under
a present key is not distinguished from an absent key; no claim depends on the
difference).  A `dict.get(k, d)` chain becomes `Option.getD`; a missing list
field defaults to the empty list exactly as `dict.get(k, [])` does.
-/

namespace BotTesting

/-- Raw block entry of a configuration: only the keys the extractor reads
(`id`, `type`) are modelled; the record itself stands for the full payload
that `extract_blocks` stores under `data`. -/
structure RawBlock where
  id : Option String
  type : Option String
deriving DecidableEq, Repr

/-- Raw node entry: keys read are `id`, `name`, `blocks`, `next_node_id`. -/
structure RawNode where
  id : Option String
  name : Option String
  blocks : List RawBlock
  next_node_id : Option String
deriving DecidableEq, Repr

/-- Raw entry-edge entry: keys read are `id`, `type`, `value`,
`target_node_id`, `name`. -/
structure RawEdge where
  id : Option String
  type : Option String
  value : Option String
  target_node_id : Option String
  name : Option String
deriving DecidableEq, Repr

/-- Raw scenario entry: keys read are `id`, `slug`, `name`,
`parent_scenario_id`, `entry_edges`, `nodes`. -/
structure RawScenario where
  id : Option String
  slug : Option String
  name : Option String
  parent_scenario_id : Option String
  entry_edges : List RawEdge
  nodes : List RawNode
deriving DecidableEq, Repr

/-- The normalized configuration mapping (the `config_attrs` dictionary after
envelope unwrapping): the extractor only reads its `scenarios` list. -/
structure Config where
  scenarios : List RawScenario
deriving DecidableEq, Repr

/-- `element_types.BlockInfo`. -/
structure BlockInfo where
  path : String
  type : String
  data : RawBlock
  scenario_slug : String
  scenario_name : String
  node_id : String
  node_name : String
  block_id : String
deriving DecidableEq, Repr

/-- `element_types.EntryEdgeInfo`. -/
structure EntryEdgeInfo where
  path : String
  type : String
  pattern : String
  target_node_id : String
  scenario_slug : String
  scenario_name : String
  edge_id : Option String
  name : Option String
deriving DecidableEq, Repr

/-- `element_types.NodeInfo`. -/
structure NodeInfo where
  path : String
  node_id : String
  name : String
  scenario_slug : String
  scenario_name : String
  blocks : List BlockInfo
  next_node_id : Option String
deriving DecidableEq, Repr

/-- `element_types.ScenarioInfo`. -/
structure ScenarioInfo where
  path : String
  scenario_id : Option String
  name : String
  slug : String
  parent_scenario_id : Option String
  entry_edges : List EntryEdgeInfo
  nodes : List NodeInfo
deriving DecidableEq, Repr

/-- `scenario.get("slug", scenario.get("name", ""))`. -/
def derivedSlug (s : RawScenario) : String :=
  s.slug.getD (s.name.getD "")

/-- `scenario.get("name", "")`. -/
def derivedName (s : RawScenario) : String :=
  s.name.getD ""

/-- Python equality between a `str` and an `Optional[str]`:
a string never equals `None`. -/
def pyStrEqOpt (s : String) (o : Option String) : Bool :=
  match o with
  | some t => s == t
  | none => false

/-- The `BlockInfo` built by `extract_blocks` for block `block` at index
`b_idx` of node `node` inside scenario `scen` at index `s_idx`. -/
def mkBlockInfo (s_idx : Nat) (scen : RawScenario) (node : RawNode)
    (p : Nat × RawBlock) : BlockInfo :=
  { path := "scenarios[" ++ toString s_idx ++ "].nodes[" ++ node.id.getD ""
      ++ "].blocks[" ++ toString p.1 ++ "]"
    type := p.2.type.getD "unknown"
    data := p.2
    scenario_slug := derivedSlug scen
    scenario_name := derivedName scen
    node_id := node.id.getD ""
    node_name := node.name.getD ""
    block_id := p.2.id.getD ("block_" ++ toString p.1) }

/-- The blocks `extract_blocks` produces from one scenario. -/
def blocksOfScenario (s_idx : Nat) (scen : RawScenario) : List BlockInfo :=
  scen.nodes.flatMap fun node => (node.blocks.enum).map (mkBlockInfo s_idx scen node)

/-- `ElementExtractor.extract_blocks`: all blocks of all scenarios in
document order. -/
def extract_blocks (cfg : Config) : List BlockInfo :=
  (cfg.scenarios.enum).flatMap fun p => blocksOfScenario p.1 p.2

/-- `ElementExtractor.extract_blocks_by_type`. -/
def extract_blocks_by_type (cfg : Config) (block_type : String) : List BlockInfo :=
  (extract_blocks cfg).filter fun b => b.type == block_type

/-- The `EntryEdgeInfo` built by `extract_entry_edges` for edge `edge` at
index `e_idx` of scenario `scen` at index `s_idx`. -/
def mkEdgeInfo (s_idx : Nat) (scen : RawScenario) (p : Nat × RawEdge) : EntryEdgeInfo :=
  { path := "scenarios[" ++ toString s_idx ++ "].entry_edges[" ++ toString p.1 ++ "]"
    type := p.2.type.getD "unknown"
    pattern := p.2.value.getD ""
    target_node_id := p.2.target_node_id.getD ""
    scenario_slug := derivedSlug scen
    scenario_name := derivedName scen
    edge_id := p.2.id
    name := p.2.name }

/-- The entry edges `extract_entry_edges` produces from one scenario. -/
def edgesOfScenario (s_idx : Nat) (scen : RawScenario) : List EntryEdgeInfo :=
  (scen.entry_edges.enum).map (mkEdgeInfo s_idx scen)

/-- `ElementExtractor.extract_entry_edges`. -/
def extract_entry_edges (cfg : Config) : List EntryEdgeInfo :=
  (cfg.scenarios.enum).flatMap fun p => edgesOfScenario p.1 p.2

/-- `ElementExtractor.extract_entry_edges_by_type`. -/
def extract_entry_edges_by_type (cfg : Config) (edge_type : String) : List EntryEdgeInfo :=
  (extract_entry_edges cfg).filter fun e => e.type == edge_type

/-- The `NodeInfo` built by `extract_nodes` for node `node` at index `n_idx`
of scenario `scen` at index `s_idx`.  The node's block list filters the full
block extraction with the Python comparison `b.node_id == node.get("id")`
(an `Optional[str]` on the right: for an id-less node nothing matches). -/
def mkNodeInfo (cfg : Config) (s_idx : Nat) (scen : RawScenario)
    (p : Nat × RawNode) : NodeInfo :=
  { path := "scenarios[" ++ toString s_idx ++ "].nodes[" ++ toString p.1 ++ "]"
    node_id := p.2.id.getD ""
    name := p.2.name.getD ""
    scenario_slug := derivedSlug scen
    scenario_name := derivedName scen
    blocks := (extract_blocks cfg).filter fun b => pyStrEqOpt b.node_id p.2.id
    next_node_id := p.2.next_node_id }

/-- The nodes `extract_nodes` produces from one scenario. -/
def nodesOfScenario (cfg : Config) (s_idx : Nat) (scen : RawScenario) : List NodeInfo :=
  (scen.nodes.enum).map (mkNodeInfo cfg s_idx scen)

/-- `ElementExtractor.extract_nodes`. -/
def extract_nodes (cfg : Config) : List NodeInfo :=
  (cfg.scenarios.enum).flatMap fun p => nodesOfScenario cfg p.1 p.2

/-- The `ScenarioInfo` built by `extract_scenarios` for scenario `scen` at
index `s_idx`: its edge and node lists re-derive the full extractions and
filter them by slug equality. -/
def mkScenarioInfo (cfg : Config) (p : Nat × RawScenario) : ScenarioInfo :=
  { path := "scenarios[" ++ toString p.1 ++ "]"
    scenario_id := p.2.id
    name := derivedName p.2
    slug := derivedSlug p.2
    parent_scenario_id := p.2.parent_scenario_id
    entry_edges := (extract_entry_edges cfg).filter
      fun e => e.scenario_slug == derivedSlug p.2
    nodes := (extract_nodes cfg).filter
      fun n => n.scenario_slug == derivedSlug p.2 }

/-- `ElementExtractor.extract_scenarios`. -/
def extract_scenarios (cfg : Config) : List ScenarioInfo :=
  (cfg.scenarios.enum).map (mkScenarioInfo cfg)

/-- `ElementExtractor.get_all_node_ids`. -/
def get_all_node_ids (cfg : Config) : Finset String :=
  (cfg.scenarios.flatMap fun s => s.nodes.map fun n => n.id.getD "").toFinset

/-- `ElementExtractor.get_all_scenario_ids`: a set comprehension guarded by
`if "id" in s`, so only present ids contribute. -/
def get_all_scenario_ids (cfg : Config) : Finset String :=
  (cfg.scenarios.filterMap fun s => s.id).toFinset

/-- `ElementExtractor` object state after `set_config_attr` has stored a
loaded configuration. -/
structure ElementExtractor where
  config_attrs : Config
deriving DecidableEq, Repr

/-- One call of the `extract_blocks` method, as a state transformer: the
method reads `self.config_attrs`, builds the list in local variables and
returns it; it assigns neither to `self` nor to the configuration, so the
post-state is the pre-state. -/
def ElementExtractor.extract_blocks_run (ex : ElementExtractor) :
    List BlockInfo × ElementExtractor :=
  (extract_blocks ex.config_attrs, ex)

/-!
### Pattern-to-probe converter (`bot_testing/utils.py`)

`regex_to_sample_message` runs eight `re.sub` passes over the pattern.  Each
pass is embedded as a character-list transformation with exactly CPython's
(3.7+) `re.sub` semantics for that fixed pattern, including the treatment of
zero-width matches: an empty match consumes the following character and an
empty match directly after a non-empty match is also replaced.  `\s` is
modelled by `Char.isWhitespace` (the probe patterns use only ASCII spacing).
-/

/-- Collapse every maximal nonempty run of characters satisfying `p` into
the single character `out`, leaving other characters unchanged: the effect
of `re.sub` with a `X+` pattern.  The boolean state records whether the scan
is inside a run (structural recursion keeps the function kernel-reducible). -/
def collapseRuns (p : Char → Bool) (out : Char) : Bool → List Char → List Char
  | _, [] => []
  | inRun, c :: rest =>
    if p c then
      if inRun then collapseRuns p out true rest
      else out :: collapseRuns p out true rest
    else c :: collapseRuns p out false rest

/-- `re.sub(r"\s+", " ", s)`: every maximal nonempty whitespace run becomes
one space. -/
def subWsPlus (l : List Char) : List Char :=
  collapseRuns Char.isWhitespace ' ' false l

/-- `re.sub(r"\s*", " ", s)` with CPython 3.7+ zero-width semantics: the
pattern matches at every position (a possibly empty whitespace run), so a
space also lands before every non-whitespace character and at the end of the
string; an empty match directly after a nonempty run is still replaced.
The boolean state records whether the scan is inside a whitespace run. -/
def subWsStarA : Bool → List Char → List Char
  | _, [] => [' ']
  | inRun, c :: rest =>
    if c.isWhitespace then
      if inRun then subWsStarA true rest
      else ' ' :: subWsStarA true rest
    else ' ' :: c :: subWsStarA false rest

/-- `re.sub(r"\s*", " ", s)`. -/
def subWsStar (l : List Char) : List Char :=
  subWsStarA false l

/-- `re.sub(r"\.+", " ", s)`: every maximal run of literal dots becomes one
space. -/
def subDotPlus (l : List Char) : List Char :=
  collapseRuns (· == '.') ' ' false l

/-- `re.sub(r"\.\*", " ", s)`: every occurrence of the two-character text
`.*` becomes one space. -/
def subDotStar : List Char → List Char
  | '.' :: '*' :: rest => ' ' :: subDotStar rest
  | c :: rest => c :: subDotStar rest
  | [] => []

/-- Scanner state for the `r"\\d+"` / `r"\\w+"` passes: outside any
candidate match, just after an unmatched backslash, or inside the greedy
letter run of a match. -/
inductive BsState where
  | normal
  | seenBs
  | inRun
deriving DecidableEq, Repr

/-- `re.sub` of a backslash followed by a nonempty greedy run of the letter
`letter`, replaced by `out` (the `r"\\d+"` and `r"\\w+"` passes), as a
one-character-per-step state machine (structural recursion keeps the
function kernel-reducible). -/
def subBsRun (letter out : Char) : BsState → List Char → List Char
  | st, [] =>
    (match st with
     | .seenBs => ['\\']
     | _ => [])
  | st, c :: rest =>
    match st with
    | .normal =>
      if c == '\\' then subBsRun letter out .seenBs rest
      else c :: subBsRun letter out .normal rest
    | .seenBs =>
      if c == letter then out :: subBsRun letter out .inRun rest
      else if c == '\\' then '\\' :: subBsRun letter out .seenBs rest
      else '\\' :: c :: subBsRun letter out .normal rest
    | .inRun =>
      if c == letter then subBsRun letter out .inRun rest
      else if c == '\\' then subBsRun letter out .seenBs rest
      else c :: subBsRun letter out .normal rest

/-- `re.sub(r"\\d+", "1", s)`: a backslash followed by a maximal nonempty
run of `d` characters becomes `1`. -/
def subBsDPlus (l : List Char) : List Char :=
  subBsRun 'd' '1' .normal l

/-- `re.sub(r"\\d\*", "1", s)`: every occurrence of the three-character text
`\d*` becomes `1`. -/
def subBsDStar : List Char → List Char
  | '\\' :: 'd' :: '*' :: rest => '1' :: subBsDStar rest
  | c :: rest => c :: subBsDStar rest
  | [] => []

/-- `re.sub(r"\\w+", "a", s)`: a backslash followed by a maximal nonempty
run of `w` characters becomes `a`. -/
def subBsWPlus (l : List Char) : List Char :=
  subBsRun 'w' 'a' .normal l

/-- `re.sub(r"\\w\*", "a", s)`: every occurrence of the three-character text
`\w*` becomes `a`. -/
def subBsWStar : List Char → List Char
  | '\\' :: 'w' :: '*' :: rest => 'a' :: subBsWStar rest
  | c :: rest => c :: subBsWStar rest
  | [] => []

/-- Maximal runs of characters satisfying `p`, in order (the shape shared by
`str.split()` and `re.findall` of a `[...]+` pattern).  `cur` accumulates
the current run in reverse. -/
def tokensByA (p : Char → Bool) (cur : List Char) : List Char → List (List Char)
  | [] => if cur = [] then [] else [cur.reverse]
  | c :: rest =>
    if p c then tokensByA p (c :: cur) rest
    else if cur = [] then tokensByA p [] rest
    else cur.reverse :: tokensByA p [] rest

/-- Maximal runs of characters satisfying `p`. -/
def tokensBy (p : Char → Bool) (l : List Char) : List (List Char) :=
  tokensByA p [] l

/-- Python `s.split()` (no separator): maximal non-whitespace runs. -/
def pySplitWs (l : List Char) : List (List Char) :=
  tokensBy (fun c => !c.isWhitespace) l

/-- Python `s.strip()`. -/
def pyStrip (l : List Char) : List Char :=
  ((l.dropWhile Char.isWhitespace).reverse.dropWhile Char.isWhitespace).reverse

/-- The anchor-stripping step of the converter:
`pattern.lstrip("^").rstrip("$")`.  Python `lstrip`/`rstrip` remove every
leading/trailing character of the given set. -/
def stripAnchors (l : List Char) : List Char :=
  ((l.dropWhile (· == '^')).reverse.dropWhile (· == '$')).reverse

/-- `utils.regex_to_sample_message`. -/
def regex_to_sample_message (pattern : List Char) : List Char :=
  if pattern = [] then "test".toList
  else
    let p := if pattern.contains '|' then pattern.takeWhile (· ≠ '|') else pattern
    let p := stripAnchors p
    let p := subWsPlus p
    let p := subWsStar p
    let p := subDotPlus p
    let p := subDotStar p
    let p := subBsDPlus p
    let p := subBsDStar p
    let p := subBsWPlus p
    let p := subBsWStar p
    let p := p.filter (· ≠ '\\')
    let p := List.intercalate [' '] (pySplitWs p)
    if pyStrip p = [] then "test".toList else pyStrip p

/-!
### Dynamic test parametrization (`tests/conftest.py`)
-/

/-- The character class of `re.findall(r'[\wа-яА-ЯёЁ]+', pattern)` in
`_make_test_id`.  Python `\w` is Unicode-aware; the embedding covers ASCII
word characters plus the Cyrillic letters the class names explicitly
(`а`-`я`, `А`-`Я`, `ё`, `Ё`), which is exact for every pattern the
configuration claims exercise. -/
def isWordCharRu (c : Char) : Bool :=
  c.isAlpha || c.isDigit || c == '_'
    || (0x410 ≤ c.val && c.val ≤ 0x44F) || c.val == 0x401 || c.val == 0x451

/-- `conftest._make_test_id`: join the first up to three word tokens of the
pattern with underscores, truncate to 50 characters, prefix with
`match_{index}_`; `match_{index}_pattern` when no token exists. -/
def make_test_id (pattern : String) (index : Nat) : String :=
  let words := tokensBy isWordCharRu pattern.toList
  if words ≠ [] then
    let meaningful := (List.intercalate ['_'] (words.take 3)).take 50
    ("match_".toList ++ (toString index).toList ++ '_' :: meaningful).asString
  else
    ("match_".toList ++ (toString index).toList ++ "_pattern".toList).asString

/-- One collected test case of the match-edge family: either a parametrized
case carrying an edge and its display identifier, or the single
unconditionally-skipped placeholder `pytest.param(None,
marks=pytest.mark.skip(reason))`. -/
inductive TestCase where
  | edge (e : EntryEdgeInfo) (id : String)
  | skipped (reason : String)
deriving DecidableEq, Repr

/-- The display identifier of a collected case (the skip placeholder has
none). -/
def TestCase.caseId : TestCase → Option String
  | .edge _ i => some i
  | .skipped _ => none

/-- The match-edge branch of `conftest.pytest_generate_tests`: over the
`"match"`-typed entry edges it registers one case per edge with
`_make_test_id` identifiers; over an empty edge list it registers exactly
one case marked skip with reason `"No match edges"`. -/
def generate_match_edge_cases (cfg : Config) : List TestCase :=
  let edges := extract_entry_edges_by_type cfg "match"
  if edges.isEmpty then
    [TestCase.skipped "No match edges"]
  else
    (edges.enum).map fun p => TestCase.edge p.2 (make_test_id p.2.pattern p.1)

/-!
### Coverage tracker (`bot_testing/coverage/tracker.py`)
-/

/-- `self.test_results`, a `defaultdict(list)` keyed by element key; each
appended record `{"passed": passed}` is modelled by its boolean. -/
def getResults : List (String × List Bool) → String → List Bool
  | [], _ => []
  | (k, l) :: rest, key => if k == key then l else getResults rest key

/-- `self.test_results[key].append({"passed": passed})`: append to the entry
of `key`, creating it when absent (defaultdict semantics). -/
def appendResult : List (String × List Bool) → String → Bool → List (String × List Bool)
  | [], key, passed => [(key, [passed])]
  | (k, l) :: rest, key, passed =>
    if k == key then (k, l ++ [passed]) :: rest
    else (k, l) :: appendResult rest key passed

/-- `CoverageTracker` state: the `tested_elements` set and the per-key
test-result history. -/
structure CoverageTracker where
  tested_elements : Finset String
  test_results : List (String × List Bool)
deriving DecidableEq

/-- `CoverageTracker.__init__`. -/
def freshTracker : CoverageTracker :=
  { tested_elements := ∅, test_results := [] }

/-- `CoverageTracker.mark_block_tested`. -/
def mark_block_tested (tr : CoverageTracker) (block_path : String)
    (passed : Bool) : CoverageTracker :=
  { tested_elements := insert ("block:" ++ block_path) tr.tested_elements
    test_results := appendResult tr.test_results ("block:" ++ block_path) passed }

/-- `CoverageTracker.mark_edge_tested`. -/
def mark_edge_tested (tr : CoverageTracker) (edge_path : String)
    (passed : Bool) : CoverageTracker :=
  { tested_elements := insert ("edge:" ++ edge_path) tr.tested_elements
    test_results := appendResult tr.test_results ("edge:" ++ edge_path) passed }

/-- `CoverageTracker.mark_node_tested`. -/
def mark_node_tested (tr : CoverageTracker) (node_path : String)
    (passed : Bool) : CoverageTracker :=
  { tested_elements := insert ("node:" ++ node_path) tr.tested_elements
    test_results := appendResult tr.test_results ("node:" ++ node_path) passed }

/-- Floor of a rational as an integer, computably (`Int.fdiv` floors). -/
def floorQ (q : ℚ) : ℤ := Int.fdiv q.num q.den

/-- Python `round(x, 1)` modelled on rationals: round-half-to-even at one
decimal digit (CPython rounds the double with banker's rounding; on the
exact rationals produced here the two agree at every claim input). -/
def pyRound1 (q : ℚ) : ℚ :=
  let f := floorQ (q * 10)
  let r := q * 10 - f
  let n := if r < 1/2 then f else if 1/2 < r then f + 1
           else if f % 2 = 0 then f else f + 1
  (n : ℚ) / 10

/-- The dictionary returned by `get_coverage_summary`. -/
structure CoverageSummary where
  total_elements : ℤ
  tested_elements : ℕ
  coverage_percent : ℚ
  untested_elements : ℤ
deriving DecidableEq, Repr

/-- `CoverageTracker.get_coverage_summary`: the percentage is computed only
when the caller-supplied total is positive and is defined as `0` otherwise
(the conditional expression guards the division). -/
def get_coverage_summary (tr : CoverageTracker) (total_elements : ℤ) :
    CoverageSummary :=
  let tested := tr.tested_elements.card
  let coverage : ℚ :=
    if 0 < total_elements then (tested : ℚ) / (total_elements : ℚ) * 100 else 0
  { total_elements := total_elements
    tested_elements := tested
    coverage_percent := pyRound1 coverage
    untested_elements := total_elements - tested }

/-!
### Concrete configurations used as witnesses and counterexamples
-/

/-- A configuration with three match-type entry edges whose patterns are
`привет`, `/start` and `помощь совет`, in document order. -/
def cfgThreeMatch : Config :=
  ⟨[⟨some "sc1", some "greet", some "Greeting", none,
     [⟨some "e0", some "match", some "привет", some "n0", none⟩,
      ⟨some "e1", some "match", some "/start", some "n0", none⟩,
      ⟨some "e2", some "match", some "помощь совет", some "n0", none⟩],
     [⟨some "n0", some "Start node", [⟨some "b0", some "answer"⟩], none⟩]⟩]⟩

/-- A configuration with entry edges but no `match`-typed ones. -/
def cfgNoMatch : Config :=
  ⟨[⟨some "sc1", some "main", some "Main", none,
     [⟨some "e0", some "event", some "init", some "n0", none⟩],
     [⟨some "n0", some "Start node", [⟨some "b0", some "answer"⟩], none⟩]⟩]⟩

/-- A configuration whose only node lacks an `id` field and owns one block. -/
def cfgNodeNoId : Config :=
  ⟨[⟨some "sc1", some "main", some "Main", none, [],
     [⟨none, some "Unnamed node", [⟨some "b0", some "answer"⟩], none⟩]⟩]⟩

/-- A node entry whose `id` field holds `n1`, owning one block. -/
def nodeN1 : RawNode :=
  ⟨some "n1", some "First node", [⟨some "b0", some "answer"⟩], none⟩

/-- A node entry whose `id` field holds the empty string, owning one block:
the `id` key is present even though its value is `""`. -/
def nodeEmptyId : RawNode :=
  ⟨some "", some "Second node", [⟨some "b1", some "llm"⟩], none⟩

/-- A scenario whose two nodes both carry an `id` field (`n1` and `""`). -/
def scenTwoNodes : RawScenario :=
  ⟨some "sc1", some "main", some "Main", none, [], [nodeN1, nodeEmptyId]⟩

/-- A configuration whose nodes all have an `id` field present. -/
def cfgNodeWithId : Config :=
  ⟨[scenTwoNodes]⟩

/-- A scenario entry with an `id` field. -/
def scenMain : RawScenario :=
  ⟨some "sc1", some "main", some "Main", none, [], []⟩

/-- A scenario entry lacking an `id` field, with one edge and one node. -/
def scenAux : RawScenario :=
  ⟨none, some "aux", some "Aux", none,
   [⟨some "e0", some "event", some "init", some "n0", none⟩],
   [⟨some "n0", some "Aux node", [], none⟩]⟩

/-- A configuration whose second scenario entry lacks an `id` field. -/
def cfgScenNoId : Config :=
  ⟨[scenMain, scenAux]⟩

/-- A scenario with explicit slug `dup`, one match edge and one node. -/
def scenDup1 : RawScenario :=
  ⟨some "sc1", some "dup", some "First", none,
   [⟨some "e0", some "match", some "hello", some "n0", none⟩],
   [⟨some "n0", some "Node zero", [⟨some "b0", some "answer"⟩], none⟩]⟩

/-- A scenario without a slug field whose name is `dup`, one edge, one node. -/
def scenDup2 : RawScenario :=
  ⟨some "sc2", none, some "dup", none,
   [⟨some "e1", some "event", some "init", some "n1", none⟩],
   [⟨some "n1", some "Node one", [⟨some "b1", some "llm"⟩], none⟩]⟩

/-- A configuration with two scenario entries whose derived slugs are both
`dup`: the first has an explicit `slug`, the second derives it from `name`. -/
def cfgDupSlug : Config :=
  ⟨[scenDup1, scenDup2]⟩

/-!
### Helper lemmas
-/

/-- A `takeWhile` of the equality test with a fixed character yields a
replicate of that character. -/
lemma takeWhile_beq_replicate (ch : Char) (l : List Char) :
    ∃ n, l.takeWhile (· == ch) = List.replicate n ch := by
  induction l with
  | nil => exact ⟨0, rfl⟩
  | cons c rest ih =>
    obtain ⟨n, hn⟩ := ih
    by_cases h : c = ch
    · subst h
      exact ⟨n + 1, by simp [List.takeWhile_cons, hn, List.replicate_succ]⟩
    · exact ⟨0, by simp [List.takeWhile_cons, h]⟩

/-- The head of a `dropWhile` result never satisfies the dropped predicate. -/
lemma head?_dropWhile_ne (pred : Char → Bool) (l : List Char) (c : Char)
    (h : (l.dropWhile pred).head? = some c) : pred c = false := by
  induction l with
  | nil => simp [List.dropWhile] at h
  | cons a rest ih =>
    by_cases hp : pred a = true
    · rw [List.dropWhile_cons, if_pos hp] at h
      exact ih h
    · rw [List.dropWhile_cons, if_neg hp] at h
      simp only [List.head?_cons, Option.some.injEq] at h
      subst h
      exact Bool.not_eq_true _ ▸ hp

/-- Appending a result to the per-key history extends exactly that key's
list by one record. -/
lemma getResults_appendResult (tr : List (String × List Bool)) (key : String)
    (passed : Bool) :
    getResults (appendResult tr key passed) key = getResults tr key ++ [passed] := by
  induction tr with
  | nil => simp [appendResult, getResults]
  | cons hd rest ih =>
    by_cases h : hd.1 == key
    · simp [appendResult, getResults, h]
    · simp [appendResult, getResults, h, ih]

/-!
### Claim theorems
-/

/-- C1: the pattern-to-probe converter is claimed to satisfy its five
docstring/spec examples; on the actual code only the empty-pattern example
holds.  The `re.sub(r"\s*", " ", ...)` pass matches the empty string at
every position and therefore inserts a space between every pair of adjacent
characters, so `/start|начать|привет` yields `/ s t a r t` (not `/start`),
`^help$` yields `h e l p` (not `help`), `test.*value` yields
`t e s t * v a l u e` (not `test value`) and `\d+` yields `d +` (not `1`).
This theorem evaluates the embedded code at all five documented inputs. -/
theorem C1_probe_docstring_examples_diverge :
    regex_to_sample_message "/start|начать|привет".toList = "/ s t a r t".toList
    ∧ regex_to_sample_message "^help$".toList = "h e l p".toList
    ∧ regex_to_sample_message "test.*value".toList = "t e s t * v a l u e".toList
    ∧ regex_to_sample_message "".toList = "test".toList
    ∧ regex_to_sample_message "\\d+".toList = "d +".toList
    ∧ regex_to_sample_message "/start|начать|привет".toList ≠ "/start".toList
    ∧ regex_to_sample_message "^help$".toList ≠ "help".toList
    ∧ regex_to_sample_message "test.*value".toList ≠ "test value".toList
    ∧ regex_to_sample_message "\\d+".toList ≠ "1".toList := by
  decide

/-- C2 counterexample: the anchor-stripping step
(`pattern.lstrip("^").rstrip("$")`) applied to `^^a` removes both leading
carets, not just the first one, so the result is `a` rather than the `^a`
the claim predicts; symmetrically `a$$` loses both trailing dollars. -/
theorem C2_counterexample_strip_all_carets :
    stripAnchors "^^a".toList = "a".toList
    ∧ stripAnchors "^^a".toList ≠ "^a".toList
    ∧ stripAnchors "a$$".toList = "a".toList
    ∧ stripAnchors "a$$".toList ≠ "a$".toList := by
  decide

/-- C2 (amended): the anchor-stripping step removes the whole maximal
leading run of `^` characters and the whole maximal trailing run of `$`
characters, and nothing else: every pattern decomposes as that caret run,
the stripped result, and that dollar run, and the result neither starts
with `^` nor ends with `$`. -/
theorem C2_stripAnchors_removes_all_anchors (p : List Char) :
    (∃ nc nd, p = List.replicate nc '^' ++ stripAnchors p ++ List.replicate nd '$')
    ∧ (stripAnchors p).head? ≠ some '^'
    ∧ (stripAnchors p).getLast? ≠ some '$' := by
  obtain ⟨nc, hnc⟩ := takeWhile_beq_replicate '^' p
  obtain ⟨nd, hnd⟩ := takeWhile_beq_replicate '$' (p.dropWhile (· == '^')).reverse
  have hq : p.dropWhile (· == '^') = stripAnchors p ++ List.replicate nd '$' := by
    conv_lhs => rw [← List.reverse_reverse (p.dropWhile (· == '^'))]
    rw [← List.takeWhile_append_dropWhile (· == '$') (p.dropWhile (· == '^')).reverse,
      List.reverse_append, hnd, List.reverse_replicate]
    rfl
  refine ⟨⟨nc, nd, ?_⟩, ?_, ?_⟩
  · conv_lhs => rw [← List.takeWhile_append_dropWhile (· == '^') p]
    rw [hnc, hq, List.append_assoc]
  · intro hhead
    have hqh : (p.dropWhile (· == '^')).head? = some '^' := by
      rcases hsa : stripAnchors p with _ | ⟨c, r⟩
      · rw [hsa] at hhead
        simp at hhead
      · rw [hsa] at hhead
        simp only [List.head?_cons, Option.some.injEq] at hhead
        rw [hq, hsa, hhead]
        rfl
    have := head?_dropWhile_ne (· == '^') p '^' hqh
    simp at this
  · intro hlast
    have hh : ((p.dropWhile (· == '^')).reverse.dropWhile (· == '$')).head? = some '$' := by
      rw [← List.getLast?_reverse]
      exact hlast
    have := head?_dropWhile_ne (· == '$') (p.dropWhile (· == '^')).reverse '$' hh
    simp at this

/-- C2 witness: the amended statement evaluated at the concrete pattern
`^^a$`, whose stripped form is `a`. -/
theorem C2_stripAnchors_witness :
    (∃ nc nd, "^^a$".toList
      = List.replicate nc '^' ++ stripAnchors "^^a$".toList ++ List.replicate nd '$')
    ∧ (stripAnchors "^^a$".toList).head? ≠ some '^'
    ∧ (stripAnchors "^^a$".toList).getLast? ≠ some '$' :=
  C2_stripAnchors_removes_all_anchors "^^a$".toList

/-- C4: over a configuration with zero match-typed entry edges, the dynamic
parametrization registers exactly one case for the match-edge family, and
that case is the unconditional skip placeholder with reason
`No match edges`. -/
theorem C4_no_match_edges_single_skip (cfg : Config)
    (h : extract_entry_edges_by_type cfg "match" = []) :
    generate_match_edge_cases cfg = [TestCase.skipped "No match edges"]
    ∧ (generate_match_edge_cases cfg).length = 1 := by
  simp [generate_match_edge_cases, h]

/-- C4 witness: a configuration whose only entry edge is event-typed has no
match edges, and its match-edge parametrization is the single skipped
placeholder. -/
theorem C4_no_match_edges_witness :
    extract_entry_edges_by_type cfgNoMatch "match" = []
    ∧ generate_match_edge_cases cfgNoMatch = [TestCase.skipped "No match edges"]
    ∧ (generate_match_edge_cases cfgNoMatch).length = 1 :=
  ⟨by decide,
   (C4_no_match_edges_single_skip cfgNoMatch (by decide)).1,
   (C4_no_match_edges_single_skip cfgNoMatch (by decide)).2⟩

/-- C5: two successive calls of the `extract_blocks` method on the same
extractor state (holding the same loaded mapping) return element-for-element
equal lists, and the first call leaves the state unchanged: the method is a
pure function of the configuration snapshot. -/
theorem C5_extract_blocks_deterministic (ex : ElementExtractor) :
    ex.extract_blocks_run.2 = ex
    ∧ ex.extract_blocks_run.2.extract_blocks_run.1 = ex.extract_blocks_run.1
    ∧ ∀ i : Nat, (ex.extract_blocks_run.2.extract_blocks_run.1)[i]?
        = (ex.extract_blocks_run.1)[i]? :=
  ⟨rfl, rfl, fun _ => rfl⟩

/-- C5 witness: the determinism statement evaluated on an extractor loaded
with a concrete configuration. -/
theorem C5_extract_blocks_deterministic_witness :
    (ElementExtractor.mk cfgThreeMatch).extract_blocks_run.2
        = ElementExtractor.mk cfgThreeMatch
    ∧ (ElementExtractor.mk cfgThreeMatch).extract_blocks_run.2.extract_blocks_run.1
        = (ElementExtractor.mk cfgThreeMatch).extract_blocks_run.1
    ∧ ∀ i : Nat,
        ((ElementExtractor.mk cfgThreeMatch).extract_blocks_run.2.extract_blocks_run.1)[i]?
        = ((ElementExtractor.mk cfgThreeMatch).extract_blocks_run.1)[i]? :=
  C5_extract_blocks_deterministic (ElementExtractor.mk cfgThreeMatch)

/-- C6: over the configuration with the three match-edge patterns `привет`,
`/start`, `помощь совет` (in document order), the generated display
identifiers are exactly `match_0_привет`, `match_1_start` and
`match_2_помощь_совет`, and no case is a skip placeholder. -/
theorem C6_three_match_edge_ids :
    (generate_match_edge_cases cfgThreeMatch).map TestCase.caseId
      = [some "match_0_привет", some "match_1_start", some "match_2_помощь_совет"]
    ∧ (generate_match_edge_cases cfgThreeMatch).length = 3 := by
  decide

/-- C7: on a freshly constructed tracker, requesting the coverage summary
with total `0` returns all-zero statistics; the guard `total_elements > 0`
keeps the zero total out of the division, so the percentage is defined as
`0` rather than failing. -/
theorem C7_zero_total_summary :
    get_coverage_summary freshTracker 0
      = { total_elements := 0, tested_elements := 0
          coverage_percent := 0, untested_elements := 0 } := by
  simp [get_coverage_summary, freshTracker, pyRound1, floorQ]

/-- C8 counterexample: the claim quantifies over every tracker state, but
from a state in which path `p` was already marked once, marking it tested
twice more leaves a per-key history of length 3, not 2 (each mark appends
one record). -/
theorem C8_counterexample_history_length_three :
    (getResults (mark_block_tested (mark_block_tested (mark_block_tested
        freshTracker "p" true) "p" true) "p" true).test_results
      ("block:" ++ "p")).length = 3
    ∧ ¬ ((getResults (mark_block_tested (mark_block_tested (mark_block_tested
        freshTracker "p" true) "p" true) "p" true).test_results
      ("block:" ++ "p")).length = 2) := by
  decide

/-- C8 (amended): for every tracker state, marking the same block path
tested twice leaves exactly one entry for its key in the tested set (the
resulting set is `insert key` of the old one, so the tested count grows by
at most one), and appends exactly two records to that key's history — hence
the history has length 2 whenever the key's history was empty before (as on
a fresh tracker). -/
theorem C8_mark_twice_set_once_history_two (tr : CoverageTracker)
    (path : String) (b1 b2 : Bool) :
    ("block:" ++ path)
        ∈ (mark_block_tested (mark_block_tested tr path b1) path b2).tested_elements
    ∧ (mark_block_tested (mark_block_tested tr path b1) path b2).tested_elements
        = insert ("block:" ++ path) tr.tested_elements
    ∧ getResults (mark_block_tested (mark_block_tested tr path b1) path b2).test_results
        ("block:" ++ path)
        = getResults tr.test_results ("block:" ++ path) ++ [b1, b2]
    ∧ (getResults tr.test_results ("block:" ++ path) = [] →
        (getResults (mark_block_tested (mark_block_tested tr path b1) path b2).test_results
          ("block:" ++ path)).length = 2) := by
  refine ⟨?_, ?_, ?_, ?_⟩
  · simp [mark_block_tested]
  · simp [mark_block_tested, Finset.insert_idem]
  · simp [mark_block_tested, getResults_appendResult]
  · intro h
    simp [mark_block_tested, getResults_appendResult, h]

/-- C8 witness: the amended statement evaluated on a fresh tracker and path
`p`, where the prior history is empty and the final history length is 2. -/
theorem C8_mark_twice_witness :
    ("block:" ++ "p")
        ∈ (mark_block_tested (mark_block_tested freshTracker "p" true) "p" false).tested_elements
    ∧ (mark_block_tested (mark_block_tested freshTracker "p" true) "p" false).tested_elements
        = insert ("block:" ++ "p") freshTracker.tested_elements
    ∧ getResults (mark_block_tested (mark_block_tested freshTracker "p" true) "p" false).test_results
        ("block:" ++ "p")
        = getResults freshTracker.test_results ("block:" ++ "p") ++ [true, false]
    ∧ (getResults (mark_block_tested (mark_block_tested freshTracker "p" true) "p" false).test_results
        ("block:" ++ "p")).length = 2 :=
  ⟨(C8_mark_twice_set_once_history_two freshTracker "p" true false).1,
   (C8_mark_twice_set_once_history_two freshTracker "p" true false).2.1,
   (C8_mark_twice_set_once_history_two freshTracker "p" true false).2.2.1,
   (C8_mark_twice_set_once_history_two freshTracker "p" true false).2.2.2 rfl⟩

/-- C3 counterexample: in a configuration whose only node lacks an `id`
field but owns a block, the extracted node's block list is empty (the code
filters with `node.get("id")`, which is `None`), while filtering the full
block extraction by the extracted node's (defaulted, empty-string) id
yields that block — so the claimed invariant fails for id-less nodes. -/
theorem C3_counterexample_idless_node :
    (¬ ∀ n ∈ extract_nodes cfgNodeNoId,
        n.blocks = (extract_blocks cfgNodeNoId).filter
          fun b => b.node_id == n.node_id)
    ∧ (extract_nodes cfgNodeNoId).map NodeInfo.blocks = [[]]
    ∧ ((extract_blocks cfgNodeNoId).filter fun b => b.node_id == "").length = 1 := by
  decide

/-- C3 (amended): for every configuration and every node whose source entry
has an `id` field — the field's value `v` may be any string, the empty
string included — the record the node extraction builds for that entry is
among the extracted nodes, carries `v` as its id, and its block list equals
the full block extraction filtered by that node's id; a node lacking the
`id` field instead gets an empty block list (see the counterexample). -/
theorem C3_node_blocks_eq_filter (cfg : Config) (i j : Nat)
    (scen : RawScenario) (node : RawNode) (v : String)
    (hscen : cfg.scenarios[i]? = some scen)
    (hnode : scen.nodes[j]? = some node)
    (hid : node.id = some v) :
    mkNodeInfo cfg i scen (j, node) ∈ extract_nodes cfg
    ∧ (mkNodeInfo cfg i scen (j, node)).node_id = v
    ∧ (mkNodeInfo cfg i scen (j, node)).blocks
        = (extract_blocks cfg).filter
            fun b => b.node_id == (mkNodeInfo cfg i scen (j, node)).node_id := by
  refine ⟨?_, by simp [mkNodeInfo, hid], ?_⟩
  · simp only [extract_nodes, List.mem_flatMap]
    exact ⟨(i, scen), List.mk_mem_enum_iff_getElem?.mpr hscen,
      List.mem_map_of_mem _ (List.mk_mem_enum_iff_getElem?.mpr hnode)⟩
  · simp [mkNodeInfo, hid, pyStrEqOpt]

/-- C3 witness: in the configuration whose two nodes carry the ids `n1` and
`""` (the `id` key present in both entries), each node's extracted record
is among the extracted nodes and its block list equals the filtered full
block extraction — also for the node whose id value is the empty string. -/
theorem C3_node_blocks_witness :
    (mkNodeInfo cfgNodeWithId 0 scenTwoNodes (0, nodeN1) ∈ extract_nodes cfgNodeWithId
      ∧ (mkNodeInfo cfgNodeWithId 0 scenTwoNodes (0, nodeN1)).node_id = "n1"
      ∧ (mkNodeInfo cfgNodeWithId 0 scenTwoNodes (0, nodeN1)).blocks
          = (extract_blocks cfgNodeWithId).filter
              fun b => b.node_id == (mkNodeInfo cfgNodeWithId 0 scenTwoNodes (0, nodeN1)).node_id)
    ∧ (mkNodeInfo cfgNodeWithId 0 scenTwoNodes (1, nodeEmptyId) ∈ extract_nodes cfgNodeWithId
      ∧ (mkNodeInfo cfgNodeWithId 0 scenTwoNodes (1, nodeEmptyId)).node_id = ""
      ∧ (mkNodeInfo cfgNodeWithId 0 scenTwoNodes (1, nodeEmptyId)).blocks
          = (extract_blocks cfgNodeWithId).filter
              fun b => b.node_id == (mkNodeInfo cfgNodeWithId 0 scenTwoNodes (1, nodeEmptyId)).node_id) :=
  ⟨C3_node_blocks_eq_filter cfgNodeWithId 0 0 scenTwoNodes nodeN1 "n1"
      (by decide) (by decide) (by decide),
   C3_node_blocks_eq_filter cfgNodeWithId 0 1 scenTwoNodes nodeEmptyId ""
      (by decide) (by decide) (by decide)⟩

/-- Removing a list entry on which `f` returns `none` does not change the
`filterMap` of the list. -/
lemma filterMap_eraseIdx_of_none {α β : Type} (f : α → Option β) :
    ∀ (l : List α) (i : Nat) (a : α), l[i]? = some a → f a = none →
      (l.eraseIdx i).filterMap f = l.filterMap f := by
  intro l
  induction l with
  | nil =>
    intro i a h
    simp at h
  | cons x xs ih =>
    intro i a h hf
    cases i with
    | zero =>
      simp only [List.getElem?_cons_zero, Option.some.injEq] at h
      subst h
      simp [List.eraseIdx_cons_zero, List.filterMap_cons, hf]
    | succ j =>
      simp only [List.getElem?_cons_succ] at h
      rw [List.eraseIdx_cons_succ, List.filterMap_cons, List.filterMap_cons]
      cases f x <;> simp [ih j a h hf]

/-- The record `extract_scenarios` places at index `i` is the one built
from the raw scenario at index `i`. -/
lemma extract_scenarios_getElem? (cfg : Config) (i : Nat) (s : RawScenario)
    (hs : cfg.scenarios[i]? = some s) :
    (extract_scenarios cfg)[i]? = some (mkScenarioInfo cfg (i, s)) := by
  simp [extract_scenarios, List.getElem?_map, List.getElem?_enum, hs]

/-- C9: a scenario entry lacking an `id` field contributes nothing to the
set of all scenario ids (removing it from the configuration leaves the set
unchanged, with no placeholder added), even though scenario extraction
still returns its full record at its document position. -/
theorem C9_idless_scenario_excluded_from_ids (cfg : Config) (i : Nat)
    (s : RawScenario) (hs : cfg.scenarios[i]? = some s) (hid : s.id = none) :
    get_all_scenario_ids cfg = get_all_scenario_ids ⟨cfg.scenarios.eraseIdx i⟩
    ∧ (extract_scenarios cfg).length = cfg.scenarios.length
    ∧ (extract_scenarios cfg)[i]? = some (mkScenarioInfo cfg (i, s))
    ∧ (mkScenarioInfo cfg (i, s)).scenario_id = none := by
  refine ⟨?_, by simp [extract_scenarios],
    extract_scenarios_getElem? cfg i s hs, by simp [mkScenarioInfo, hid]⟩
  unfold get_all_scenario_ids
  congr 1
  exact (filterMap_eraseIdx_of_none _ cfg.scenarios i s hs hid).symm

/-- C9 witness: the statement evaluated on the configuration whose second
scenario entry has no id. -/
theorem C9_idless_scenario_witness :
    get_all_scenario_ids cfgScenNoId
      = get_all_scenario_ids ⟨cfgScenNoId.scenarios.eraseIdx 1⟩
    ∧ (extract_scenarios cfgScenNoId).length = cfgScenNoId.scenarios.length
    ∧ (extract_scenarios cfgScenNoId)[1]? = some (mkScenarioInfo cfgScenNoId (1, scenAux))
    ∧ (mkScenarioInfo cfgScenNoId (1, scenAux)).scenario_id = none :=
  C9_idless_scenario_excluded_from_ids cfgScenNoId 1 scenAux (by decide) (by decide)

/-- Every edge built from the scenario at index `i` appears in the full
entry-edge extraction. -/
lemma edgesOfScenario_subset_extract (cfg : Config) (i : Nat)
    (scen : RawScenario) (hs : cfg.scenarios[i]? = some scen)
    (e : EntryEdgeInfo) (he : e ∈ edgesOfScenario i scen) :
    e ∈ extract_entry_edges cfg := by
  simp only [extract_entry_edges, List.mem_flatMap]
  exact ⟨(i, scen), List.mk_mem_enum_iff_getElem?.mpr hs, he⟩

/-- Every node built from the scenario at index `i` appears in the full
node extraction. -/
lemma nodesOfScenario_subset_extract (cfg : Config) (i : Nat)
    (scen : RawScenario) (hs : cfg.scenarios[i]? = some scen)
    (n : NodeInfo) (hn : n ∈ nodesOfScenario cfg i scen) :
    n ∈ extract_nodes cfg := by
  simp only [extract_nodes, List.mem_flatMap]
  exact ⟨(i, scen), List.mk_mem_enum_iff_getElem?.mpr hs, hn⟩

/-- Edges built from a scenario carry that scenario's derived slug. -/
lemma edgesOfScenario_slug (i : Nat) (scen : RawScenario) (e : EntryEdgeInfo)
    (he : e ∈ edgesOfScenario i scen) : e.scenario_slug = derivedSlug scen := by
  simp only [edgesOfScenario, List.mem_map] at he
  obtain ⟨q, hq, rfl⟩ := he
  rfl

/-- Nodes built from a scenario carry that scenario's derived slug. -/
lemma nodesOfScenario_slug (cfg : Config) (i : Nat) (scen : RawScenario)
    (n : NodeInfo) (hn : n ∈ nodesOfScenario cfg i scen) :
    n.scenario_slug = derivedSlug scen := by
  simp only [nodesOfScenario, List.mem_map] at hn
  obtain ⟨q, hq, rfl⟩ := hn
  rfl

/-- C10: when two scenario entries have equal derived slugs, scenario
extraction returns a record for each of them, and each of the two records'
entry-edge and node lists contains the entry edges and nodes of both
scenarios, because attachment filters by slug equality rather than by
structural position. -/
theorem C10_shared_slug_scenarios_cross_attach (cfg : Config) (i j : Nat)
    (si sj : RawScenario) (hi : cfg.scenarios[i]? = some si)
    (hj : cfg.scenarios[j]? = some sj)
    (hslug : derivedSlug si = derivedSlug sj) :
    ∃ ri rj,
      (extract_scenarios cfg)[i]? = some ri
      ∧ (extract_scenarios cfg)[j]? = some rj
      ∧ (∀ e, e ∈ edgesOfScenario i si ∨ e ∈ edgesOfScenario j sj →
            e ∈ ri.entry_edges ∧ e ∈ rj.entry_edges)
      ∧ (∀ n, n ∈ nodesOfScenario cfg i si ∨ n ∈ nodesOfScenario cfg j sj →
            n ∈ ri.nodes ∧ n ∈ rj.nodes) := by
  refine ⟨_, _, extract_scenarios_getElem? cfg i si hi,
    extract_scenarios_getElem? cfg j sj hj, ?_, ?_⟩
  · rintro e (he | he)
    · have hm := edgesOfScenario_subset_extract cfg i si hi e he
      have hsl := edgesOfScenario_slug i si e he
      exact ⟨List.mem_filter.mpr ⟨hm, by simp [hsl]⟩,
        List.mem_filter.mpr ⟨hm, by simp [hsl, hslug]⟩⟩
    · have hm := edgesOfScenario_subset_extract cfg j sj hj e he
      have hsl := edgesOfScenario_slug j sj e he
      exact ⟨List.mem_filter.mpr ⟨hm, by simp [hsl, hslug]⟩,
        List.mem_filter.mpr ⟨hm, by simp [hsl]⟩⟩
  · rintro n (hn | hn)
    · have hm := nodesOfScenario_subset_extract cfg i si hi n hn
      have hsl := nodesOfScenario_slug cfg i si n hn
      exact ⟨List.mem_filter.mpr ⟨hm, by simp [hsl]⟩,
        List.mem_filter.mpr ⟨hm, by simp [hsl, hslug]⟩⟩
    · have hm := nodesOfScenario_subset_extract cfg j sj hj n hn
      have hsl := nodesOfScenario_slug cfg j sj n hn
      exact ⟨List.mem_filter.mpr ⟨hm, by simp [hsl, hslug]⟩,
        List.mem_filter.mpr ⟨hm, by simp [hsl]⟩⟩

/-- C10 witness: the statement evaluated on the configuration whose two
scenarios both derive the slug `dup`. -/
theorem C10_shared_slug_witness :
    ∃ ri rj,
      (extract_scenarios cfgDupSlug)[0]? = some ri
      ∧ (extract_scenarios cfgDupSlug)[1]? = some rj
      ∧ (∀ e, e ∈ edgesOfScenario 0 scenDup1 ∨ e ∈ edgesOfScenario 1 scenDup2 →
            e ∈ ri.entry_edges ∧ e ∈ rj.entry_edges)
      ∧ (∀ n, n ∈ nodesOfScenario cfgDupSlug 0 scenDup1
            ∨ n ∈ nodesOfScenario cfgDupSlug 1 scenDup2 →
            n ∈ ri.nodes ∧ n ∈ rj.nodes) :=
  C10_shared_slug_scenarios_cross_attach cfgDupSlug 0 1 scenDup1 scenDup2
    (by decide) (by decide) (by decide)

end BotTesting
